import Mathlib

/-!
Verification development for the scheduled-payment / webhook subsystem of the
credit-repair application.

The server-side webhook handler (`WebhookHandlers.processWebhook`) and the
client plan-creation mutation are embedded directly from the source.  The
persistence gateway (`storage.updateScheduledPayment`, `storage.createTransaction`),
the plan-schedule generation route and the client-facing confirm-payment route
are not part of the available source tree; they are modelled from the
specification, each with a doc comment saying so.
-/

namespace CreditRepair

/-- Modelled from the spec: calendar dates for due-date arithmetic.
`monthIndex` counts calendar months since an epoch (year * 12 + month), so that
adding k months is exact calendar-month arithmetic, never a fixed 30-day step;
`day` is the day of the month. -/
structure CalDate where
  monthIndex : Nat
  day : Nat
deriving DecidableEq, Repr

/-- Strict chronological order on calendar dates. -/
def dateLt (a b : CalDate) : Prop :=
  a.monthIndex < b.monthIndex ∨ (a.monthIndex = b.monthIndex ∧ a.day < b.day)

instance (a b : CalDate) : Decidable (dateLt a b) := by
  unfold dateLt; infer_instance

/-- `start date + k months` (spec 4.1: calendar-month arithmetic). -/
def addMonths (d : CalDate) (k : Nat) : CalDate :=
  ⟨d.monthIndex + k, d.day⟩

/-- A ScheduledPayment row (shared schema: one installment of a credit plan).
Timestamps are modelled as natural numbers (epoch time). -/
structure ScheduledPayment where
  id : Nat
  userId : String
  planId : Nat
  amount : Int
  dueDate : CalDate
  status : String
  paidAt : Option Nat
deriving DecidableEq, Repr

/-- A Transaction ledger row (shared schema). -/
structure Transaction where
  userId : String
  planId : Nat
  type : String
  amount : Int
  externalId : String
  status : String
  description : String
deriving DecidableEq, Repr

/-- The durable store visible to the webhook handler: scheduled-payment rows
and the transaction ledger. -/
structure Store where
  scheduledPayments : List ScheduledPayment
  transactions : List Transaction
deriving DecidableEq, Repr

/-- A partial update to a ScheduledPayment row, mirroring the TS object
literals passed to `storage.updateScheduledPayment`; `none` means the field is
absent from the patch and is left unchanged. -/
structure PaymentPatch where
  status : Option String
  paidAt : Option Nat
deriving DecidableEq, Repr

/-- Apply a partial update to one row; fields absent from the patch keep their
value.  `amount`, `dueDate`, `id`, `userId`, `planId` are never patched by the
handler. -/
def applyPatch (p : ScheduledPayment) (patch : PaymentPatch) : ScheduledPayment :=
  { p with
    status := patch.status.getD p.status
    paidAt := match patch.paidAt with
      | some t => some t
      | none => p.paidAt }

/-- Modelled from the spec: `storage.updateScheduledPayment(id, ownerId, patch)`
is not under the available source tree.  Per spec 6, every gateway operation is
scoped by owner id; a row whose id or owner does not match is left untouched
(not-found / ownership mismatch is a no-op). -/
def updateScheduledPayment (store : Store) (id : Nat) (ownerId : String)
    (patch : PaymentPatch) : Store :=
  { store with scheduledPayments :=
      store.scheduledPayments.map fun p =>
        if p.id = id ∧ p.userId = ownerId then applyPatch p patch else p }

/-- The per-event fields of a transaction row as built by the webhook handler
(the owner id is passed separately, mirroring `storage.createTransaction`). -/
structure TransactionInput where
  planId : Nat
  type : String
  amount : Int
  externalId : String
  status : String
  description : String
deriving DecidableEq, Repr

/-- Modelled from the spec: `storage.createTransaction(ownerId, transaction)` is
not under the available source tree.  Per spec 3 the transaction ledger is
append-only ("never updated after creation"); per spec 6 the gateway call
creates one row owned by `ownerId`. -/
def createTransaction (store : Store) (ownerId : String) (tx : TransactionInput) : Store :=
  { store with transactions := store.transactions ++
      [⟨ownerId, tx.planId, tx.type, tx.amount, tx.externalId, tx.status, tx.description⟩] }

/-- A Stripe PaymentIntent as seen by the handler (`event.data.object`): the
intent id, the amount, the intent creation time, and the correlation metadata
set when the intent was created.  Metadata values are modelled post-parsing:
`metaPlanId`/`metaPaymentId` are the `Number(...)` of the metadata string when
the string is present and non-empty, `none` when absent or empty. -/
structure PaymentIntentObj where
  id : String
  amount : Int
  created : Nat
  metaUserId : Option String
  metaPlanId : Option Nat
  metaPaymentId : Option Nat
deriving DecidableEq, Repr

/-- A Stripe event: its type string, its creation time, and its payload
object. -/
structure StripeEvent where
  type : String
  created : Nat
  pi : PaymentIntentObj
deriving DecidableEq, Repr

/-- JS truthiness of `string | undefined`: defined and non-empty. -/
def truthyStr : Option String → Bool
  | some s => s != ""
  | none => false

/-- JS truthiness of `number | undefined`: defined and non-zero. -/
def truthyNat : Option Nat → Bool
  | some n => n != 0
  | none => false

/-- The request body as it reaches `processWebhook`: either the raw byte
buffer together with the event those bytes decode to, or a body already parsed
upstream (`Buffer.isBuffer` fails). -/
inductive Payload where
  | buffer (bytes : List Nat) (event : StripeEvent)
  | parsed
deriving DecidableEq, Repr

/-- Modelled from the spec: the Stripe SDK's signature computation over the raw
body with the server-held webhook secret (the SDK is an external dependency,
not repository code).  A concrete executable stand-in for the HMAC: any
signature differing from `signPayload secret bytes` fails verification. -/
def signPayload (secret : String) (bytes : List Nat) : String :=
  secret ++ "." ++ toString (bytes.foldl (fun a b => a * 31 + b) 7)

/-- From `src/stripeClient.ts` (`constructStripeEvent`): validate the signature
of the raw body against the webhook secret; return the decoded event on
success, an error otherwise. -/
def constructStripeEvent (secret : String) (bytes : List Nat) (signature : String)
    (event : StripeEvent) : Except String StripeEvent :=
  if signature = signPayload secret bytes then Except.ok event
  else Except.error "Webhook signature verification failed"

/-- The `payment_intent.succeeded` branch of `WebhookHandlers.processWebhook`
(source lines 21-48): when the metadata user id is truthy, first update the
scheduled payment (if a truthy paymentId is present) to `completed` with
`paidAt` taken from the handler's clock (`new Date()`), then (if a truthy
planId is present) create a transaction row referencing the intent. -/
def handleSucceeded (pi : PaymentIntentObj) (now : Nat) (store : Store) : Store :=
  if truthyStr pi.metaUserId then
    let userId := pi.metaUserId.getD ""
    let s1 :=
      if truthyNat pi.metaPaymentId then
        updateScheduledPayment store (pi.metaPaymentId.getD 0) userId
          ⟨some "completed", some now⟩
      else store
    if truthyNat pi.metaPlanId then
      createTransaction s1 userId
        ⟨pi.metaPlanId.getD 0, "payment", pi.amount, pi.id, "completed",
          if truthyNat pi.metaPaymentId then
            "Payment for scheduled payment #" ++ toString (pi.metaPaymentId.getD 0)
          else "Credit plan payment"⟩
    else s1
  else store

/-- The `payment_intent.payment_failed` branch of `WebhookHandlers.processWebhook`
(source lines 51-62): when both the metadata user id and the paymentId are
truthy, patch that scheduled payment's status to `failed`. -/
def handleFailed (pi : PaymentIntentObj) (store : Store) : Store :=
  if truthyStr pi.metaUserId && truthyNat pi.metaPaymentId then
    updateScheduledPayment store (pi.metaPaymentId.getD 0) (pi.metaUserId.getD "")
      ⟨some "failed", none⟩
  else store

/-- Event dispatch of `WebhookHandlers.processWebhook`: the two recognized
event types mutate the store; any other type falls through and the store is
returned unchanged. -/
def handleEvent (ev : StripeEvent) (now : Nat) (store : Store) : Store :=
  if ev.type = "payment_intent.succeeded" then handleSucceeded ev.pi now store
  else if ev.type = "payment_intent.payment_failed" then handleFailed ev.pi store
  else store

/-- `WebhookHandlers.processWebhook(payload, signature)` from the source: throw
if the body is not a raw Buffer, verify the signature via
`constructStripeEvent`, then dispatch on the event type.  `now` is the
handler's clock (the value `new Date()` evaluates to); the result is the store
after the delivery, or the thrown error.  Both throws occur before any storage
call, so an error implies no write happened. -/
def processWebhook (secret : String) (payload : Payload) (signature : String)
    (now : Nat) (store : Store) : Except String Store :=
  match payload with
  | Payload.parsed =>
      Except.error "STRIPE WEBHOOK ERROR: Payload must be a Buffer."
  | Payload.buffer bytes event =>
      match constructStripeEvent secret bytes signature event with
      | Except.error e => Except.error e
      | Except.ok ev => Except.ok (handleEvent ev now store)

/-- From `src` (credit-plans page, `createMutation`): the monthly installment
sent to the server, `Math.ceil(totalAmount / termMonths)` on integer minor
units. -/
def monthlyPayment (totalAmount termMonths : Nat) : Nat :=
  (totalAmount + termMonths - 1) / termMonths

/-- Modelled from the spec: the amount of the k-th installment (k = 0 ..
termMonths - 1) — the monthly payment for every installment but the last,
which is reduced by the rounding surplus so the amounts sum exactly to the
total (spec 4.1 and the worked example of spec 8). -/
def installmentAmount (totalAmount termMonths k : Nat) : Int :=
  if k + 1 < termMonths then (monthlyPayment totalAmount termMonths : Int)
  else (totalAmount : Int) - (termMonths - 1) * (monthlyPayment totalAmount termMonths : Int)

/-- Modelled from the spec: the server-side schedule generation behind
`POST /api/credit-plans` (`createPlanWithSchedule`) is not under the available
source tree.  Per spec 4.1 it creates one ScheduledPayment per installment,
`termMonths` rows in all, each installment equal to the monthly payment except
the last, which is reduced so the amounts sum exactly to the total; due dates
are `start date + k months` for k = 0 .. termMonths - 1. -/
def generateSchedule (userId : String) (planId : Nat) (totalAmount termMonths : Nat)
    (startDate : CalDate) : List ScheduledPayment :=
  (List.range termMonths).map fun k =>
    { id := k + 1
      userId := userId
      planId := planId
      amount := installmentAmount totalAmount termMonths k
      dueDate := addMonths startDate k
      status := "scheduled"
      paidAt := none }

/-- The two client-facing payment-flow requests that follow a payment attempt
(payment-sheet.tsx): the intent-creation request and the post-confirmation
notification sent after client-observed success. -/
inductive ClientOp where
  | createIntent (amount : Int) (planId paymentId : Option Nat)
  | confirmPayment (paymentIntentId : String) (planId paymentId : Option Nat)
deriving DecidableEq, Repr

/-- Modelled from the spec: the server routes behind
`POST /api/stripe/create-payment-intent` and `POST /api/stripe/confirm-payment`
are not under the available source tree.  Per spec 4.3 the Payment Intent Flow
"performs no durable state mutation itself"; per spec 5 the intent-creation
path never mutates ScheduledPayment and creates no local record.  Both
requests therefore leave the durable store unchanged. -/
def applyClientOp (store : Store) (_ : ClientOp) : Store := store

/-- An operation that can touch the durable store: a client payment-flow
request or a webhook delivery. -/
inductive SystemOp where
  | client (op : ClientOp)
  | webhook (payload : Payload) (signature : String) (now : Nat)
deriving DecidableEq, Repr

/-- Apply one operation to the store; a webhook delivery that throws leaves
the store unchanged. -/
def applyOp (secret : String) (store : Store) (op : SystemOp) : Store :=
  match op with
  | SystemOp.client c => applyClientOp store c
  | SystemOp.webhook payload signature now =>
      match processWebhook secret payload signature now store with
      | Except.ok s => s
      | Except.error _ => store

/-- Look a scheduled-payment row up by id. -/
def findPayment (store : Store) (id : Nat) : Option ScheduledPayment :=
  store.scheduledPayments.find? fun p => p.id == id

section Fixtures

/-- A concrete webhook secret for witnesses. -/
def exSecret : String := "whsec_test"

/-- Concrete raw body bytes for witnesses. -/
def exBytes : List Nat := [123, 34, 105, 100, 34, 125]

/-- The valid signature of `exBytes` under `exSecret`. -/
def exSig : String := signPayload exSecret exBytes

/-- A concrete succeeded event: user `u1`, plan 7, scheduled payment 1,
intent `pi_1`, carried event time 100. -/
def exEvSucceeded : StripeEvent :=
  { type := "payment_intent.succeeded"
    created := 100
    pi := { id := "pi_1", amount := 4167, created := 100,
            metaUserId := some "u1", metaPlanId := some 7, metaPaymentId := some 1 } }

/-- A concrete failed event for the same user and scheduled payment. -/
def exEvFailed : StripeEvent :=
  { type := "payment_intent.payment_failed"
    created := 150
    pi := { id := "pi_1", amount := 4167, created := 150,
            metaUserId := some "u1", metaPlanId := some 7, metaPaymentId := some 1 } }

/-- A concrete store: one scheduled row for user `u1`, empty ledger. -/
def exStore : Store :=
  { scheduledPayments :=
      [{ id := 1, userId := "u1", planId := 7, amount := 4167,
         dueDate := ⟨24300, 15⟩, status := "scheduled", paidAt := none }]
    transactions := [] }

end Fixtures

section HelperLemmas

/-- Creating a transaction never touches the scheduled-payment rows. -/
lemma createTransaction_sp (s : Store) (u : String) (tx : TransactionInput) :
    (createTransaction s u tx).scheduledPayments = s.scheduledPayments := rfl

/-- Updating a scheduled payment never touches the ledger. -/
lemma updateScheduledPayment_tx (s : Store) (id : Nat) (u : String) (patch : PaymentPatch) :
    (updateScheduledPayment s id u patch).transactions = s.transactions := rfl

/-- A patch never changes a row's id. -/
lemma applyPatch_id (p : ScheduledPayment) (patch : PaymentPatch) :
    (applyPatch p patch).id = p.id := rfl

/-- Updating preserves the number of rows. -/
lemma updateScheduledPayment_length (s : Store) (id : Nat) (u : String) (patch : PaymentPatch) :
    (updateScheduledPayment s id u patch).scheduledPayments.length
      = s.scheduledPayments.length := by
  simp [updateScheduledPayment]

/-- Elementwise behaviour of an update. -/
lemma updateScheduledPayment_getElem? (s : Store) (id : Nat) (u : String)
    (patch : PaymentPatch) (i : Nat) :
    (updateScheduledPayment s id u patch).scheduledPayments[i]?
      = s.scheduledPayments[i]?.map fun p =>
          if p.id = id ∧ p.userId = u then applyPatch p patch else p := by
  simp [updateScheduledPayment, List.getElem?_map]

/-- A row owned by someone other than the scoping owner is untouched by an
update (spec 6: gateway writes are scoped by owner id). -/
lemma updateScheduledPayment_other_user (s : Store) (id : Nat) (u : String)
    (patch : PaymentPatch) (i : Nat) (p : ScheduledPayment)
    (hip : s.scheduledPayments[i]? = some p) (hne : p.userId ≠ u) :
    (updateScheduledPayment s id u patch).scheduledPayments[i]? = some p := by
  rw [updateScheduledPayment_getElem?, hip]
  have : ¬(p.id = id ∧ p.userId = u) := by rintro ⟨-, h⟩; exact hne h
  simp [if_neg this]

/-- A verified delivery is accepted: with the correct signature over the raw
bytes, `processWebhook` returns `ok` with the dispatched store. -/
lemma processWebhook_verified (secret : String) (bytes : List Nat) (ev : StripeEvent)
    (now : Nat) (store : Store) :
    processWebhook secret (Payload.buffer bytes ev) (signPayload secret bytes) now store
      = Except.ok (handleEvent ev now store) := by
  simp [processWebhook, constructStripeEvent]

/-- Inversion: an accepted delivery was signature-verified and its result is
the dispatched store. -/
lemma processWebhook_ok_inv {secret : String} {bytes : List Nat} {ev : StripeEvent}
    {sig : String} {now : Nat} {store s' : Store}
    (h : processWebhook secret (Payload.buffer bytes ev) sig now store = Except.ok s') :
    sig = signPayload secret bytes ∧ s' = handleEvent ev now store := by
  by_cases hsig : sig = signPayload secret bytes
  · refine ⟨hsig, ?_⟩
    rw [processWebhook, constructStripeEvent, if_pos hsig] at h
    exact (Except.ok.injEq _ _).mp h.symm
  · rw [processWebhook, constructStripeEvent, if_neg hsig] at h
    cases h

end HelperLemmas

/-- Claim C3 (confirmed): if the payload is not a raw byte buffer, or the
signature does not verify against the server-held webhook secret, then
`processWebhook` raises an error, and the delivery leaves the durable store
unchanged (zero persistence writes). -/
theorem C3_unverified_rejected_no_write (secret : String) (payload : Payload)
    (signature : String) (now : Nat) (store : Store)
    (h : payload = Payload.parsed ∨
      ∀ bytes ev, payload = Payload.buffer bytes ev → signature ≠ signPayload secret bytes) :
    (∃ msg, processWebhook secret payload signature now store = Except.error msg) ∧
      applyOp secret store (SystemOp.webhook payload signature now) = store := by
  cases payload with
  | parsed =>
      exact ⟨⟨"STRIPE WEBHOOK ERROR: Payload must be a Buffer.", rfl⟩, rfl⟩
  | buffer bytes ev =>
      rcases h with h | h
      · cases h
      · have hs := h bytes ev rfl
        refine ⟨⟨"Webhook signature verification failed", ?_⟩, ?_⟩
        · simp [processWebhook, constructStripeEvent, hs]
        · simp [applyOp, processWebhook, constructStripeEvent, hs]

/-- Witness for C3 at a concrete tampered signature. -/
theorem C3_witness :
    (∃ msg, processWebhook exSecret (Payload.buffer exBytes exEvSucceeded) "tampered" 200 exStore
        = Except.error msg) ∧
      applyOp exSecret exStore
        (SystemOp.webhook (Payload.buffer exBytes exEvSucceeded) "tampered" 200) = exStore :=
  C3_unverified_rejected_no_write exSecret (Payload.buffer exBytes exEvSucceeded) "tampered"
    200 exStore (Or.inr (by intro bytes ev h; cases h; decide))

/-- Claim C8 (confirmed): a verified event whose type is neither
`payment_intent.succeeded` nor `payment_intent.payment_failed`, or a verified
event of either type whose metadata lacks a (truthy) user identifier, is
acknowledged — `processWebhook` returns `ok` without error — and the store is
returned unchanged: no persistence write of any kind. -/
theorem C8_unrecognized_or_anonymous_ack_no_write (secret : String) (bytes : List Nat)
    (ev : StripeEvent) (now : Nat) (store : Store)
    (h : (ev.type ≠ "payment_intent.succeeded" ∧ ev.type ≠ "payment_intent.payment_failed") ∨
      truthyStr ev.pi.metaUserId = false) :
    processWebhook secret (Payload.buffer bytes ev) (signPayload secret bytes) now store
      = Except.ok store := by
  rw [processWebhook_verified]
  have : handleEvent ev now store = store := by
    rcases h with ⟨h1, h2⟩ | h
    · simp [handleEvent, h1, h2]
    · unfold handleEvent
      split
      · simp [handleSucceeded, h]
      · split
        · simp [handleFailed, h]
        · rfl
  rw [this]

/-- A concrete event of a type the handler does not recognize. -/
def exEvOther : StripeEvent :=
  { type := "charge.refunded"
    created := 120
    pi := { id := "pi_2", amount := 500, created := 120,
            metaUserId := some "u1", metaPlanId := some 7, metaPaymentId := some 1 } }

/-- Witness for C8 at a concrete unrecognized event type. -/
theorem C8_witness :
    processWebhook exSecret (Payload.buffer exBytes exEvOther) (signPayload exSecret exBytes)
      200 exStore = Except.ok exStore :=
  C8_unrecognized_or_anonymous_ack_no_write exSecret exBytes exEvOther 200 exStore
    (Or.inl ⟨by decide, by decide⟩)

/-- Claim C9 (confirmed): a verified `payment_intent.payment_failed` event
carrying a (truthy) user identifier and scheduled-payment identifier patches
exactly the rows matching that id and owned by that user to status `failed`,
leaves every other row untouched, and creates no Transaction row. -/
theorem C9_failed_marks_failed_no_transaction (secret : String) (bytes : List Nat)
    (ev : StripeEvent) (now : Nat) (store : Store) (u : String) (pid : Nat)
    (hty : ev.type = "payment_intent.payment_failed")
    (hu : ev.pi.metaUserId = some u) (hune : u ≠ "")
    (hp : ev.pi.metaPaymentId = some pid) (hpne : pid ≠ 0) :
    ∃ s', processWebhook secret (Payload.buffer bytes ev) (signPayload secret bytes) now store
        = Except.ok s' ∧
      s'.transactions = store.transactions ∧
      s'.scheduledPayments = store.scheduledPayments.map fun p =>
        if p.id = pid ∧ p.userId = u then { p with status := "failed" } else p := by
  refine ⟨handleEvent ev now store, processWebhook_verified _ _ _ _ _, ?_, ?_⟩ <;>
  · unfold handleEvent handleFailed
    rw [hty]
    simp [hu, hp, truthyStr, truthyNat, bne_iff_ne, hune, hpne,
      updateScheduledPayment, applyPatch]

/-- Witness for C9 at the concrete failed event. -/
theorem C9_witness :
    ∃ s', processWebhook exSecret (Payload.buffer exBytes exEvFailed)
        (signPayload exSecret exBytes) 300 exStore = Except.ok s' ∧
      s'.transactions = exStore.transactions ∧
      s'.scheduledPayments = exStore.scheduledPayments.map fun p =>
        if p.id = 1 ∧ p.userId = "u1" then { p with status := "failed" } else p :=
  C9_failed_marks_failed_no_transaction exSecret exBytes exEvFailed 300 exStore "u1" 1
    rfl rfl (by decide) rfl (by decide)

/-- Claim C10 (confirmed): a verified `payment_intent.succeeded` event carrying
a (truthy) user identifier and plan identifier but no (truthy) scheduled-payment
identifier updates no ScheduledPayment row at all and appends exactly one
Transaction row of type `payment`, status `completed`, amount equal to the
intent's amount, external reference equal to the intent's id, owned by the
event's user. -/
theorem C10_succeeded_plan_only_appends_transaction (secret : String) (bytes : List Nat)
    (ev : StripeEvent) (now : Nat) (store : Store) (u : String) (pl : Nat)
    (hty : ev.type = "payment_intent.succeeded")
    (hu : ev.pi.metaUserId = some u) (hune : u ≠ "")
    (hpl : ev.pi.metaPlanId = some pl) (hplne : pl ≠ 0)
    (hpid : truthyNat ev.pi.metaPaymentId = false) :
    ∃ s', processWebhook secret (Payload.buffer bytes ev) (signPayload secret bytes) now store
        = Except.ok s' ∧
      s'.scheduledPayments = store.scheduledPayments ∧
      s'.transactions = store.transactions ++
        [⟨u, pl, "payment", ev.pi.amount, ev.pi.id, "completed", "Credit plan payment"⟩] := by
  refine ⟨handleEvent ev now store, processWebhook_verified _ _ _ _ _, ?_, ?_⟩ <;>
  · have ht : truthyStr (some u) = true := by simp [truthyStr, hune]
    have htp : truthyNat (some pl) = true := by simp [truthyNat, hplne]
    unfold handleEvent handleSucceeded
    rw [hty]
    simp [hu, hpl, ht, htp, hpid, createTransaction]

/-- A concrete succeeded event with a plan id but no scheduled-payment id. -/
def exEvPlanOnly : StripeEvent :=
  { type := "payment_intent.succeeded"
    created := 130
    pi := { id := "pi_3", amount := 2500, created := 130,
            metaUserId := some "u1", metaPlanId := some 7, metaPaymentId := none } }

/-- Witness for C10 at the concrete plan-only succeeded event. -/
theorem C10_witness :
    ∃ s', processWebhook exSecret (Payload.buffer exBytes exEvPlanOnly)
        (signPayload exSecret exBytes) 400 exStore = Except.ok s' ∧
      s'.scheduledPayments = exStore.scheduledPayments ∧
      s'.transactions = exStore.transactions ++
        [⟨"u1", 7, "payment", exEvPlanOnly.pi.amount, exEvPlanOnly.pi.id, "completed",
          "Credit plan payment"⟩] :=
  C10_succeeded_plan_only_appends_transaction exSecret exBytes exEvPlanOnly 400 exStore
    "u1" 7 rfl rfl (by decide) rfl (by decide) rfl

/-- Counterexample to claim C6: the concrete succeeded event carries effective
time 100, yet processing it at handler time 200 records `paidAt = some 200` —
the local processing time, not the time carried by the event. -/
theorem C6_counterexample :
    exEvSucceeded.created = 100 ∧
      (processWebhook exSecret (Payload.buffer exBytes exEvSucceeded) exSig 200 exStore).map
          (fun s => s.scheduledPayments.map fun p => p.paidAt) = Except.ok [some 200] ∧
      (200 : Nat) ≠ exEvSucceeded.created := by
  refine ⟨rfl, rfl, by decide⟩

/-- Claim C6 (amended): a verified `payment_intent.succeeded` event carrying a
(truthy) user identifier and scheduled-payment identifier transitions the
matching row (same id, owned by the event's user) to status `completed` and
sets its `paidAt` to the handler's clock at processing time (`new Date()`),
not to the time carried by the event. -/
theorem C6_succeeded_sets_completed_at_processing_time (secret : String) (bytes : List Nat)
    (ev : StripeEvent) (now : Nat) (store : Store) (u : String) (pid : Nat)
    (hty : ev.type = "payment_intent.succeeded")
    (hu : ev.pi.metaUserId = some u) (hune : u ≠ "")
    (hp : ev.pi.metaPaymentId = some pid) (hpne : pid ≠ 0) :
    ∃ s', processWebhook secret (Payload.buffer bytes ev) (signPayload secret bytes) now store
        = Except.ok s' ∧
      ∀ (i : Nat) (p : ScheduledPayment),
        store.scheduledPayments[i]? = some p → p.id = pid → p.userId = u →
        s'.scheduledPayments[i]? = some { p with status := "completed", paidAt := some now } := by
  refine ⟨handleEvent ev now store, processWebhook_verified _ _ _ _ _, ?_⟩
  have hsp : (handleEvent ev now store).scheduledPayments
      = (updateScheduledPayment store pid u ⟨some "completed", some now⟩).scheduledPayments := by
    have ht : truthyStr (some u) = true := by simp [truthyStr, hune]
    have htn : truthyNat (some pid) = true := by simp [truthyNat, hpne]
    unfold handleEvent handleSucceeded
    rw [hty]
    simp only [hu, hp, ht, htn, if_true, Option.getD_some, if_pos]
    split
    · rw [createTransaction_sp]
    · rfl
  intro i p hip hid huid
  rw [hsp, updateScheduledPayment_getElem?, hip]
  simp [hid, huid, applyPatch]

/-- Witness for the amended C6 at the concrete succeeded event. -/
theorem C6_witness :
    ∃ s', processWebhook exSecret (Payload.buffer exBytes exEvSucceeded)
        (signPayload exSecret exBytes) 200 exStore = Except.ok s' ∧
      ∀ (i : Nat) (p : ScheduledPayment),
        exStore.scheduledPayments[i]? = some p → p.id = 1 → p.userId = "u1" →
        s'.scheduledPayments[i]? = some { p with status := "completed", paidAt := some 200 } :=
  C6_succeeded_sets_completed_at_processing_time exSecret exBytes exEvSucceeded 200 exStore
    "u1" 1 rfl rfl (by decide) rfl (by decide)

/-- Counterexample to claim C2: on the concrete store the succeeded event
brings the row to `completed`, and a later payment-failed delivery for the
same row moves it to `failed` — the status regresses out of `completed`. -/
theorem C2_counterexample :
    (processWebhook exSecret (Payload.buffer exBytes exEvSucceeded) exSig 200 exStore).map
        (fun s => s.scheduledPayments.map fun p => p.status) = Except.ok ["completed"] ∧
      ((processWebhook exSecret (Payload.buffer exBytes exEvSucceeded) exSig 200 exStore).bind
          fun s1 => processWebhook exSecret (Payload.buffer exBytes exEvFailed) exSig 300 s1).map
        (fun s => s.scheduledPayments.map fun p => p.status) = Except.ok ["failed"] :=
  ⟨rfl, rfl⟩

/-- Claim C2 (amended): the failed transition is applied unconditionally — a
verified payment-failed event with a (truthy) user identifier and
scheduled-payment identifier patches the matching row to status `failed`
whatever its current status, so a row already `completed` is overwritten to
`failed`; the update is last-writer-wins, not guarded by the current status. -/
theorem C2_failed_overwrites_completed (secret : String) (bytes : List Nat)
    (ev : StripeEvent) (now : Nat) (store : Store) (u : String) (pid : Nat)
    (hty : ev.type = "payment_intent.payment_failed")
    (hu : ev.pi.metaUserId = some u) (hune : u ≠ "")
    (hp : ev.pi.metaPaymentId = some pid) (hpne : pid ≠ 0) :
    ∃ s', processWebhook secret (Payload.buffer bytes ev) (signPayload secret bytes) now store
        = Except.ok s' ∧
      ∀ (i : Nat) (p : ScheduledPayment),
        store.scheduledPayments[i]? = some p → p.id = pid → p.userId = u →
        s'.scheduledPayments[i]? = some { p with status := "failed" } := by
  refine ⟨handleEvent ev now store, processWebhook_verified _ _ _ _ _, ?_⟩
  have hsp : (handleEvent ev now store).scheduledPayments
      = (updateScheduledPayment store pid u ⟨some "failed", none⟩).scheduledPayments := by
    have ht : truthyStr (some u) = true := by simp [truthyStr, hune]
    have htn : truthyNat (some pid) = true := by simp [truthyNat, hpne]
    unfold handleEvent handleFailed
    rw [hty]
    simp [hu, hp, ht, htn]
  intro i p hip hid huid
  rw [hsp, updateScheduledPayment_getElem?, hip]
  simp [hid, huid, applyPatch]

/-- Witness for the amended C2: the concrete failed event applied to a store
whose row is already `completed`. -/
theorem C2_witness :
    ∃ s', processWebhook exSecret (Payload.buffer exBytes exEvFailed)
        (signPayload exSecret exBytes) 300
        { scheduledPayments :=
            [{ id := 1, userId := "u1", planId := 7, amount := 4167,
               dueDate := ⟨24300, 15⟩, status := "completed", paidAt := some 200 }]
          transactions := [] } = Except.ok s' ∧
      ∀ (i : Nat) (p : ScheduledPayment),
        (Store.mk
            [{ id := 1, userId := "u1", planId := 7, amount := 4167,
               dueDate := ⟨24300, 15⟩, status := "completed", paidAt := some 200 }]
            []).scheduledPayments[i]? = some p → p.id = 1 → p.userId = "u1" →
        s'.scheduledPayments[i]? = some { p with status := "failed" } :=
  C2_failed_overwrites_completed exSecret exBytes exEvFailed 300
    (Store.mk
      [{ id := 1, userId := "u1", planId := 7, amount := 4167,
         dueDate := ⟨24300, 15⟩, status := "completed", paidAt := some 200 }]
      [])
    "u1" 1 rfl rfl (by decide) rfl (by decide)

/-- Whatever the delivered event does, a scheduled-payment row owned by a user
other than the one named in the event's metadata is untouched: every write the
handler issues is scoped by the event's user id (spec 6 gateway contract). -/
lemma handleEvent_preserves_other_users (ev : StripeEvent) (now : Nat) (store : Store)
    (u : String) (hu : ev.pi.metaUserId = some u) :
    (handleEvent ev now store).scheduledPayments.length
        = store.scheduledPayments.length ∧
      ∀ (i : Nat) (p : ScheduledPayment),
        store.scheduledPayments[i]? = some p → p.userId ≠ u →
        (handleEvent ev now store).scheduledPayments[i]? = some p := by
  have key : (handleEvent ev now store).scheduledPayments = store.scheduledPayments ∨
      ∃ id patch, (handleEvent ev now store).scheduledPayments
        = (updateScheduledPayment store id u patch).scheduledPayments := by
    unfold handleEvent handleSucceeded handleFailed
    split
    · split
      · rename_i htr
        have hgd : ev.pi.metaUserId.getD "" = u := by rw [hu]; rfl
        rw [hgd]
        split
        · split
          · right; exact ⟨_, _, (createTransaction_sp _ _ _)⟩
          · right; exact ⟨_, _, rfl⟩
        · split
          · left; exact createTransaction_sp _ _ _
          · left; rfl
      · left; rfl
    · split
      · split
        · rename_i htr
          have hgd : ev.pi.metaUserId.getD "" = u := by rw [hu]; rfl
          rw [hgd]
          right; exact ⟨_, _, rfl⟩
        · left; rfl
      · left; rfl
  rcases key with hk | ⟨id, patch, hk⟩
  · rw [hk]; exact ⟨rfl, fun i p hip _ => hip⟩
  · rw [hk]
    exact ⟨updateScheduledPayment_length _ _ _ _,
      fun i p hip hne => updateScheduledPayment_other_user _ _ _ _ _ _ hip hne⟩

/-- Claim C7 (confirmed): for any accepted delivery whose event metadata names
user `u`, every scheduled-payment row owned by a different user is left
exactly as it was — the write is scoped by the event's user identifier, so an
ownership mismatch is a no-op on that row, never an application of the change
to another user's row. -/
theorem C7_ownership_mismatch_no_write (secret : String) (bytes : List Nat)
    (ev : StripeEvent) (sig : String) (now : Nat) (store s' : Store) (u : String)
    (hok : processWebhook secret (Payload.buffer bytes ev) sig now store = Except.ok s')
    (hu : ev.pi.metaUserId = some u) :
    s'.scheduledPayments.length = store.scheduledPayments.length ∧
      ∀ (i : Nat) (p : ScheduledPayment),
        store.scheduledPayments[i]? = some p → p.userId ≠ u →
        s'.scheduledPayments[i]? = some p := by
  obtain ⟨-, hs⟩ := processWebhook_ok_inv hok
  rw [hs]
  exact handleEvent_preserves_other_users ev now store u hu

/-- A concrete store holding rows for two different users, the second sharing
the scheduled-payment id that the event references. -/
def exStoreTwoUsers : Store :=
  { scheduledPayments :=
      [{ id := 1, userId := "u1", planId := 7, amount := 4167,
         dueDate := ⟨24300, 15⟩, status := "scheduled", paidAt := none },
       { id := 1, userId := "u2", planId := 9, amount := 900,
         dueDate := ⟨24301, 3⟩, status := "scheduled", paidAt := none }]
    transactions := [] }

/-- Witness for C7: processing the concrete succeeded event (user `u1`) leaves
the row owned by `u2` untouched. -/
theorem C7_witness :
    (handleEvent exEvSucceeded 200 exStoreTwoUsers).scheduledPayments.length
        = exStoreTwoUsers.scheduledPayments.length ∧
      ∀ (i : Nat) (p : ScheduledPayment),
        exStoreTwoUsers.scheduledPayments[i]? = some p → p.userId ≠ "u1" →
        (handleEvent exEvSucceeded 200 exStoreTwoUsers).scheduledPayments[i]? = some p :=
  C7_ownership_mismatch_no_write exSecret exBytes exEvSucceeded
    (signPayload exSecret exBytes) 200 exStoreTwoUsers
    (handleEvent exEvSucceeded 200 exStoreTwoUsers) "u1"
    (processWebhook_verified _ _ _ _ _) rfl

/-- Counterexample to claim C1: replaying the concrete verified succeeded
event (same payment-intent external reference `pi_1`) twice leaves the
ScheduledPayment `completed`, but the ledger holds two Transaction rows, not
exactly one — the handler performs no deduplication by external reference. -/
theorem C1_counterexample :
    ((processWebhook exSecret (Payload.buffer exBytes exEvSucceeded) exSig 200 exStore).bind
        fun s1 => processWebhook exSecret (Payload.buffer exBytes exEvSucceeded) exSig 201 s1).map
      (fun s => s.transactions.length) = Except.ok 2 ∧
      ((processWebhook exSecret (Payload.buffer exBytes exEvSucceeded) exSig 200 exStore).bind
          fun s1 => processWebhook exSecret (Payload.buffer exBytes exEvSucceeded) exSig 201 s1).map
        (fun s => s.scheduledPayments.map fun p => p.status) = Except.ok ["completed"] :=
  ⟨rfl, rfl⟩

/-- On a recognized succeeded event, dispatch reduces to the succeeded
branch. -/
lemma handleEvent_succeeded (ev : StripeEvent) (now : Nat) (store : Store)
    (hty : ev.type = "payment_intent.succeeded") :
    handleEvent ev now store = handleSucceeded ev.pi now store := by
  unfold handleEvent
  rw [hty]
  simp

/-- The ledger after the succeeded branch, when the metadata carries a truthy
user id and plan id: exactly one row is appended, referencing the intent. -/
lemma handleSucceeded_tx (pi : PaymentIntentObj) (now : Nat) (store : Store)
    (u : String) (pl : Nat)
    (hu : pi.metaUserId = some u) (hune : u ≠ "")
    (hpl : pi.metaPlanId = some pl) (hplne : pl ≠ 0) :
    (handleSucceeded pi now store).transactions
      = store.transactions ++
        [⟨u, pl, "payment", pi.amount, pi.id, "completed",
          if truthyNat pi.metaPaymentId then
            "Payment for scheduled payment #" ++ toString (pi.metaPaymentId.getD 0)
          else "Credit plan payment"⟩] := by
  have ht : truthyStr (some u) = true := by simp [truthyStr, hune]
  have htp : truthyNat (some pl) = true := by simp [truthyNat, hplne]
  unfold handleSucceeded
  rw [hu, hpl]
  simp only [ht, htp, if_true, Option.getD_some]
  split
  · simp [createTransaction, updateScheduledPayment_tx]
  · simp [createTransaction]

/-- The rows after the succeeded branch: either untouched, or the result of
the scoped `completed` update. -/
lemma handleSucceeded_sp (pi : PaymentIntentObj) (now : Nat) (store : Store) :
    (handleSucceeded pi now store).scheduledPayments = store.scheduledPayments ∨
      (handleSucceeded pi now store).scheduledPayments
        = (updateScheduledPayment store (pi.metaPaymentId.getD 0) (pi.metaUserId.getD "")
            ⟨some "completed", some now⟩).scheduledPayments := by
  unfold handleSucceeded
  split
  · split
    · split
      · right; exact createTransaction_sp _ _ _
      · right; rfl
    · split
      · left; exact createTransaction_sp _ _ _
      · left; rfl
  · left; rfl

/-- A `completed` update never takes a row out of `completed`. -/
lemma update_preserves_completed (s : Store) (id : Nat) (u : String) (t : Option Nat) :
    ∀ (i : Nat) (p : ScheduledPayment),
      s.scheduledPayments[i]? = some p → p.status = "completed" →
      ∃ q, (updateScheduledPayment s id u ⟨some "completed", t⟩).scheduledPayments[i]?
          = some q ∧ q.status = "completed" := by
  intro i p hip hc
  rw [updateScheduledPayment_getElem?, hip]
  by_cases h : p.id = id ∧ p.userId = u
  · exact ⟨applyPatch p ⟨some "completed", t⟩, by simp [h], by simp [applyPatch]⟩
  · exact ⟨p, by simp [h], hc⟩

/-- Claim C1 (amended): replaying the same verified succeeded event (same
payment-intent external reference, truthy user and plan ids) creates one
Transaction row per processing — two rows after two deliveries, both carrying
that same external reference, with no deduplication — while any
ScheduledPayment that is `completed` after the first processing is still
`completed` after the second. -/
theorem C1_replay_appends_one_transaction_each_time (secret : String) (bytes : List Nat)
    (ev : StripeEvent) (now1 now2 : Nat) (store : Store) (u : String) (pl : Nat)
    (hty : ev.type = "payment_intent.succeeded")
    (hu : ev.pi.metaUserId = some u) (hune : u ≠ "")
    (hpl : ev.pi.metaPlanId = some pl) (hplne : pl ≠ 0) :
    ∃ (s1 s2 : Store) (t : Transaction),
      processWebhook secret (Payload.buffer bytes ev) (signPayload secret bytes) now1 store
          = Except.ok s1 ∧
      processWebhook secret (Payload.buffer bytes ev) (signPayload secret bytes) now2 s1
          = Except.ok s2 ∧
      s1.transactions = store.transactions ++ [t] ∧
      s2.transactions = store.transactions ++ [t, t] ∧
      t.externalId = ev.pi.id ∧
      ∀ (i : Nat) (p : ScheduledPayment),
        s1.scheduledPayments[i]? = some p → p.status = "completed" →
        ∃ q, s2.scheduledPayments[i]? = some q ∧ q.status = "completed" := by
  refine ⟨handleEvent ev now1 store, handleEvent ev now2 (handleEvent ev now1 store),
    ⟨u, pl, "payment", ev.pi.amount, ev.pi.id, "completed",
      if truthyNat ev.pi.metaPaymentId then
        "Payment for scheduled payment #" ++ toString (ev.pi.metaPaymentId.getD 0)
      else "Credit plan payment"⟩,
    processWebhook_verified _ _ _ _ _, processWebhook_verified _ _ _ _ _, ?_, ?_, rfl, ?_⟩
  · rw [handleEvent_succeeded ev now1 store hty]
    exact handleSucceeded_tx ev.pi now1 store u pl hu hune hpl hplne
  · rw [handleEvent_succeeded ev now2 _ hty,
      handleSucceeded_tx ev.pi now2 _ u pl hu hune hpl hplne,
      handleEvent_succeeded ev now1 store hty,
      handleSucceeded_tx ev.pi now1 store u pl hu hune hpl hplne]
    simp
  · intro i p hip hc
    rw [handleEvent_succeeded ev now2 _ hty]
    rcases handleSucceeded_sp ev.pi now2 (handleEvent ev now1 store) with hk | hk
    · exact ⟨p, by rw [hk]; exact hip, hc⟩
    · rw [hk]
      exact update_preserves_completed _ _ _ _ i p hip hc

/-- Witness for the amended C1 at the concrete succeeded event. -/
theorem C1_witness :
    ∃ (s1 s2 : Store) (t : Transaction),
      processWebhook exSecret (Payload.buffer exBytes exEvSucceeded)
          (signPayload exSecret exBytes) 200 exStore = Except.ok s1 ∧
      processWebhook exSecret (Payload.buffer exBytes exEvSucceeded)
          (signPayload exSecret exBytes) 201 s1 = Except.ok s2 ∧
      s1.transactions = exStore.transactions ++ [t] ∧
      s2.transactions = exStore.transactions ++ [t, t] ∧
      t.externalId = exEvSucceeded.pi.id ∧
      ∀ (i : Nat) (p : ScheduledPayment),
        s1.scheduledPayments[i]? = some p → p.status = "completed" →
        ∃ q, s2.scheduledPayments[i]? = some q ∧ q.status = "completed" :=
  C1_replay_appends_one_transaction_each_time exSecret exBytes exEvSucceeded 200 201
    exStore "u1" 7 rfl rfl (by decide) rfl (by decide)

/-- Looking a row up in an updated store: the update commutes with the lookup
because a patch never changes a row's id. -/
lemma findPayment_update (s : Store) (id : Nat) (u : String) (patch : PaymentPatch)
    (i : Nat) :
    findPayment (updateScheduledPayment s id u patch) i
      = (findPayment s i).map fun p =>
          if p.id = id ∧ p.userId = u then applyPatch p patch else p := by
  unfold findPayment updateScheduledPayment
  rw [List.find?_map]
  have hpred : ((fun p : ScheduledPayment => p.id == i) ∘ fun p =>
        if p.id = id ∧ p.userId = u then applyPatch p patch else p)
      = fun p : ScheduledPayment => p.id == i := by
    funext r
    by_cases h : r.id = id ∧ r.userId = u <;> simp [Function.comp, h, applyPatch]
  rw [hpred]

/-- Claim C5 (confirmed): no client-side path makes a terminal payment outcome
durable.  If any single operation — a client payment-flow request or a webhook
delivery — moves a scheduled-payment row into status `completed`, then that
operation was a webhook delivery of a signature-verified
`payment_intent.succeeded` event: the client-facing flow after client-observed
success never durably completes a payment. -/
theorem C5_completed_only_by_verified_webhook (secret : String) (store : Store)
    (op : SystemOp) (i : Nat) (p q : ScheduledPayment)
    (hp : findPayment store i = some p) (hpc : p.status ≠ "completed")
    (hq : findPayment (applyOp secret store op) i = some q)
    (hqc : q.status = "completed") :
    ∃ (bytes : List Nat) (ev : StripeEvent) (sig : String) (now : Nat),
      op = SystemOp.webhook (Payload.buffer bytes ev) sig now ∧
      sig = signPayload secret bytes ∧
      ev.type = "payment_intent.succeeded" := by
  cases op with
  | client c =>
      exfalso
      have happ : applyOp secret store (SystemOp.client c) = store := rfl
      rw [happ, hp] at hq
      cases hq
      exact hpc hqc
  | webhook payload sig now =>
      cases payload with
      | parsed =>
          exfalso
          have happ : applyOp secret store (SystemOp.webhook Payload.parsed sig now)
              = store := rfl
          rw [happ, hp] at hq
          cases hq
          exact hpc hqc
      | buffer bytes ev =>
          by_cases hsig : sig = signPayload secret bytes
          · have happ : applyOp secret store
                (SystemOp.webhook (Payload.buffer bytes ev) sig now)
                = handleEvent ev now store := by
              simp [applyOp, processWebhook, constructStripeEvent, hsig]
            by_cases hty : ev.type = "payment_intent.succeeded"
            · exact ⟨bytes, ev, sig, now, rfl, hsig, hty⟩
            · exfalso
              by_cases hty2 : ev.type = "payment_intent.payment_failed"
              · have hev : handleEvent ev now store = handleFailed ev.pi store := by
                  unfold handleEvent
                  rw [if_neg hty, if_pos hty2]
                rw [happ, hev] at hq
                unfold handleFailed at hq
                split at hq
                · rw [findPayment_update, hp] at hq
                  simp only [Option.map_some'] at hq
                  cases hq
                  split at hqc
                  · exact absurd hqc (by simp [applyPatch])
                  · exact hpc hqc
                · rw [hp] at hq
                  cases hq
                  exact hpc hqc
              · have hev : handleEvent ev now store = store := by
                  unfold handleEvent
                  rw [if_neg hty, if_neg hty2]
                rw [happ, hev, hp] at hq
                cases hq
                exact hpc hqc
          · exfalso
            have happ : applyOp secret store
                (SystemOp.webhook (Payload.buffer bytes ev) sig now) = store := by
              simp [applyOp, processWebhook, constructStripeEvent, hsig]
            rw [happ, hp] at hq
            cases hq
            exact hpc hqc

/-- Witness for C5: the concrete verified succeeded delivery completes the
row, and the theorem identifies it as such. -/
theorem C5_witness :
    findPayment exStore 1
        = some ⟨1, "u1", 7, 4167, ⟨24300, 15⟩, "scheduled", none⟩ ∧
      findPayment
          (applyOp exSecret exStore
            (SystemOp.webhook (Payload.buffer exBytes exEvSucceeded) exSig 200)) 1
        = some ⟨1, "u1", 7, 4167, ⟨24300, 15⟩, "completed", some 200⟩ ∧
      ∃ (bytes : List Nat) (ev : StripeEvent) (sig : String) (now : Nat),
        SystemOp.webhook (Payload.buffer exBytes exEvSucceeded) exSig 200
          = SystemOp.webhook (Payload.buffer bytes ev) sig now ∧
        sig = signPayload exSecret bytes ∧
        ev.type = "payment_intent.succeeded" :=
  ⟨rfl, rfl,
    C5_completed_only_by_verified_webhook exSecret exStore
      (SystemOp.webhook (Payload.buffer exBytes exEvSucceeded) exSig 200) 1
      ⟨1, "u1", 7, 4167, ⟨24300, 15⟩, "scheduled", none⟩
      ⟨1, "u1", 7, 4167, ⟨24300, 15⟩, "completed", some 200⟩
      rfl (by decide) rfl rfl⟩

/-- Indexing a mapped range. -/
lemma getElem?_map_range {α : Type} (f : Nat → α) {n i : Nat} (h : i < n) :
    ((List.range n).map f)[i]? = some (f i) := by
  rw [List.getElem?_map, List.getElem?_range h]
  rfl

/-- Summing a constant over a range. -/
lemma sum_map_range_const (n : Nat) (c : Int) :
    ((List.range n).map fun _ => c).sum = n * c := by
  induction n with
  | zero => simp
  | succ k ih =>
      rw [List.range_succ, List.map_append, List.sum_append, ih]
      simp
      ring

/-- The amounts of a generated schedule, in order. -/
lemma generateSchedule_map_amount (u : String) (planId total term : Nat) (start : CalDate) :
    (generateSchedule u planId total term start).map ScheduledPayment.amount
      = (List.range term).map (installmentAmount total term) := by
  unfold generateSchedule
  rw [List.map_map]
  rfl

/-- The k-th row of a generated schedule. -/
lemma generateSchedule_getElem? (u : String) (planId total term : Nat) (start : CalDate)
    {i : Nat} (h : i < term) :
    (generateSchedule u planId total term start)[i]?
      = some
        { id := i + 1, userId := u, planId := planId,
          amount := installmentAmount total term i,
          dueDate := addMonths start i, status := "scheduled", paidAt := none } := by
  unfold generateSchedule
  exact getElem?_map_range _ h

/-- Claim C4 (confirmed): for every valid plan-creation input — positive total
in minor units, term between 1 and 60 months, a start date — the generated
schedule has exactly `term` rows; the per-month installment is the ceiling of
total / term (characterized as the unique m with total ≤ term * m < total + term,
matching the source's `Math.ceil(totalAmount / termMonths)`); the row amounts
sum to exactly the total (no over- or under-collection); and each due date is
exactly one calendar month after the previous one, strictly increasing. -/
theorem C4_schedule_generation_correct (u : String) (planId total term : Nat)
    (start : CalDate) (htotal : 0 < total) (hterm1 : 1 ≤ term) (hterm60 : term ≤ 60) :
    (generateSchedule u planId total term start).length = term ∧
      total ≤ term * monthlyPayment total term ∧
      term * monthlyPayment total term < total + term ∧
      ((generateSchedule u planId total term start).map ScheduledPayment.amount).sum
        = (total : Int) ∧
      ∀ i : Nat, i + 1 < term →
        ∃ (p q : ScheduledPayment),
          (generateSchedule u planId total term start)[i]? = some p ∧
          (generateSchedule u planId total term start)[i + 1]? = some q ∧
          q.dueDate = addMonths p.dueDate 1 ∧ dateLt p.dueDate q.dueDate := by
  obtain ⟨t, rfl⟩ : ∃ t, term = t + 1 := ⟨term - 1, by omega⟩
  have hceil : total ≤ (t + 1) * monthlyPayment total (t + 1) ∧
      (t + 1) * monthlyPayment total (t + 1) < total + (t + 1) := by
    unfold monthlyPayment
    have e : total + (t + 1) - 1 = total + t := by omega
    rw [e]
    have hd := Nat.div_add_mod (total + t) (t + 1)
    have hm : (total + t) % (t + 1) < t + 1 := Nat.mod_lt _ (Nat.succ_pos t)
    generalize (total + t) / (t + 1) = m at *
    generalize (total + t) % (t + 1) = r at *
    constructor <;> nlinarith [hd, hm]
  refine ⟨by simp [generateSchedule], hceil.1, hceil.2, ?_, ?_⟩
  · rw [generateSchedule_map_amount, List.range_succ, List.map_append, List.sum_append]
    have hconst : (List.range t).map (installmentAmount total (t + 1))
        = (List.range t).map fun _ => (monthlyPayment total (t + 1) : Int) :=
      List.map_congr_left fun a ha => by
        have hlt : a < t := List.mem_range.mp ha
        unfold installmentAmount
        rw [if_pos (by omega)]
    rw [hconst, sum_map_range_const]
    have hlast : installmentAmount total (t + 1) t
        = (total : Int) - t * (monthlyPayment total (t + 1) : Int) := by
      unfold installmentAmount
      rw [if_neg (by omega)]
      simp
    simp only [List.map_cons, List.map_nil, List.sum_cons, List.sum_nil, hlast]
    ring
  · intro i hi
    refine ⟨_, _, generateSchedule_getElem? u planId total (t + 1) start (by omega),
      generateSchedule_getElem? u planId total (t + 1) start hi, ?_, ?_⟩
    · simp [addMonths, Nat.add_assoc]
    · left
      simp [addMonths]

/-- Witness for C4 at the worked example of spec 8: total 50000, term 12. -/
theorem C4_witness :
    (0 < 50000 ∧ 1 ≤ 12 ∧ 12 ≤ 60) ∧
      ((generateSchedule "u1" 7 50000 12 ⟨24300, 15⟩).length = 12 ∧
        50000 ≤ 12 * monthlyPayment 50000 12 ∧
        12 * monthlyPayment 50000 12 < 50000 + 12 ∧
        ((generateSchedule "u1" 7 50000 12 ⟨24300, 15⟩).map ScheduledPayment.amount).sum
          = (50000 : Int) ∧
        ∀ i : Nat, i + 1 < 12 →
          ∃ (p q : ScheduledPayment),
            (generateSchedule "u1" 7 50000 12 ⟨24300, 15⟩)[i]? = some p ∧
            (generateSchedule "u1" 7 50000 12 ⟨24300, 15⟩)[i + 1]? = some q ∧
            q.dueDate = addMonths p.dueDate 1 ∧ dateLt p.dueDate q.dueDate) :=
  ⟨⟨by decide, by decide, by decide⟩,
    C4_schedule_generation_correct "u1" 7 50000 12 ⟨24300, 15⟩
      (by decide) (by decide) (by decide)⟩

end CreditRepair
